import Mathlib

/-!
Shallow embedding of the request-admission and asynchronous job-execution
subsystem of the awm-toolkit service.

Source of truth:
  * `app_utils.py` — the `queue_task` decorator (Admission Gate and the
    synchronous / acknowledgement / rejection envelopes) and `process_queue`
    with its inner `process_task` coroutine (Worker Loop and the
    asynchronous-completion envelopes);
  * `services/webhook.py` — `send_webhook` (the Notifier).

Request bodies, envelopes and webhook payloads are JSON-like dictionaries,
modelled as ordered association lists of string keys and `JVal` values, with
Python dict semantics (lookup returns the first binding, update keeps the
position of an existing key, a new key is appended).  Wall-clock readings are
rationals; `round(x, 3)` is modelled by `round3`.  The Task Function is
opaque: its denotation is a `TaskResult`, either the returned three-tuple
`(payload, route, status)` or a raised exception message.  Network delivery
of a webhook is opaque as well: the environment supplies a `DeliveryOutcome`
for every attempt.
-/

/-- Values appearing in request bodies and response envelopes (a fragment of
JSON large enough for everything the admission subsystem touches). -/
inductive JVal where
  | null
  | bool (b : Bool)
  | str (s : String)
  | int (n : Int)
  | rat (q : ℚ)
deriving DecidableEq, Repr

/-- Python truthiness of a `JVal`, as used by `if data.get("webhook_url"):`
and `if not data.get('webhook_url')`. -/
def JVal.truthy : JVal → Bool
  | .null => false
  | .bool b => b
  | .str s => s ≠ ""
  | .int n => n ≠ 0
  | .rat q => q ≠ 0

/-- Python `str(...)` of a value, used for `str(data["webhook_url"])`. -/
def JVal.pyStr : JVal → String
  | .null => "None"
  | .bool b => if b then "True" else "False"
  | .str s => s
  | .int n => toString n
  | .rat q => toString q

/-- An ordered JSON object (Python dict with string keys). -/
abbrev JObj := List (String × JVal)

/-- Dictionary lookup: the value bound to the first occurrence of the key. -/
def dictGet (m : JObj) (k : String) : Option JVal :=
  match m with
  | [] => none
  | (k2, v) :: rest => if k2 = k then some v else dictGet rest k

/-- Dictionary update with Python semantics: an existing key keeps its
position, a fresh key is appended at the end. -/
def dictSet (m : JObj) (k : String) (v : JVal) : JObj :=
  match m with
  | [] => [(k, v)]
  | (k2, v2) :: rest => if k2 = k then (k2, v) :: rest else (k2, v2) :: dictSet rest k v

/-- Python `d.get(k)`: the bound value, or `None` when the key is absent. -/
def pyGet (m : JObj) (k : String) : JVal := (dictGet m k).getD .null

/-- Key list of an object, in emission order. -/
def keysOf (m : JObj) : List String := m.map Prod.fst

/-- Rounding to the nearest integer with ties to even, as Python `round`. -/
def roundHalfEven (q : ℚ) : ℤ :=
  let f := ⌊q⌋
  if q - f < 1/2 then f
  else if 1/2 < q - f then f + 1
  else if f % 2 = 0 then f else f + 1

/-- Python `round(x, 3)`: rounding to three decimal places. -/
def round3 (q : ℚ) : ℚ := (roundHalfEven (q * 1000) : ℚ) / 1000

/-- Denotation of invoking a Task Function: it either returns the three-tuple
`(payload, route, status_code)` or raises an exception with a message
(`str(e)`). -/
inductive TaskResult where
  | ok (payload : JVal) (endpoint : String) (status : Nat)
  | exn (msg : String)
deriving DecidableEq, Repr

/-- Process-wide ambient values read by both the gate and the worker:
`MAX_QUEUE_LENGTH` (from the environment, via `int(...)`), `BUILD_NUMBER`,
`os.getpid()` and `id(task_queue)`. -/
structure Ctx where
  maxQueueLength : Int
  buildNumber : String
  pid : Int
  queueId : Int
deriving DecidableEq, Repr

/-- A queued job, the tuple `(job_id, data, task_func, queue_start_time)`
put on `task_queue` by the Admission Gate.  The zero-argument closure is
represented by its denotation. -/
structure Job where
  jobId : String
  data : JObj
  task : TaskResult
  enqueuedAt : ℚ
deriving DecidableEq, Repr

/-- Observable outcome of one pass through the `queue_task` wrapper:
the HTTP status and JSON content of the `JSONResponse`, the job pushed onto
`task_queue` (if any), and whether the Task Function was invoked inline. -/
structure GateResult where
  httpStatus : Nat
  content : JObj
  enqueued : Option Job
  taskInvoked : Bool
deriving DecidableEq, Repr

/-- Synchronous-path success/tuple envelope (`queue_task`, lines 119-137):
the content of the `JSONResponse` built after `func` returned a tuple. -/
def syncSuccessContent (ctx : Ctx) (data : JObj) (userId : JVal) (jobId : String)
    (queueLen : Nat) (payload : JVal) (endpoint : String) (status : Nat)
    (runTime : ℚ) : JObj :=
  [("endpoint", .str endpoint),
   ("code", .int status),
   ("id", pyGet data "id"),
   ("user_id", userId),
   ("job_id", .str jobId),
   ("response", if status = 200 then payload else .null),
   ("message", if status = 200 then .str "success" else payload),
   ("run_time", .rat (round3 runTime)),
   ("queue_time", .int 0),
   ("total_time", .rat (round3 runTime)),
   ("pid", .int ctx.pid),
   ("queue_id", .int ctx.queueId),
   ("queue_length", .int queueLen),
   ("build_number", .str ctx.buildNumber)]

/-- Synchronous-path fault envelope (`queue_task`, lines 139-151): the
content built in the `except` handler around the inline call. -/
def syncErrorContent (ctx : Ctx) (userId : JVal) (jobId : String)
    (queueLen : Nat) (msg : String) : JObj :=
  [("code", .int 500),
   ("message", .str msg),
   ("job_id", .str jobId),
   ("user_id", userId),
   ("pid", .int ctx.pid),
   ("queue_id", .int ctx.queueId),
   ("queue_length", .int queueLen),
   ("build_number", .str ctx.buildNumber)]

/-- Queue-full rejection envelope (`queue_task`, lines 154-167). -/
def rejectContent (ctx : Ctx) (data : JObj) (userId : JVal) (jobId : String)
    (queueLen : Nat) : JObj :=
  [("code", .int 429),
   ("id", pyGet data "id"),
   ("job_id", .str jobId),
   ("user_id", userId),
   ("message", .str ("MAX_QUEUE_LENGTH (" ++ toString ctx.maxQueueLength ++ ") reached")),
   ("pid", .int ctx.pid),
   ("queue_id", .int ctx.queueId),
   ("queue_length", .int queueLen),
   ("build_number", .str ctx.buildNumber)]

/-- Acknowledgement envelope for an accepted asynchronous job (`queue_task`,
lines 171-185).  `queueLen` is `task_queue.qsize()` read after the put. -/
def ackContent (ctx : Ctx) (data : JObj) (userId : JVal) (jobId : String)
    (queueLen : Nat) : JObj :=
  [("code", .int 202),
   ("id", pyGet data "id"),
   ("job_id", .str jobId),
   ("message", .str "processing"),
   ("pid", .int ctx.pid),
   ("queue_id", .int ctx.queueId),
   ("user_id", userId),
   ("max_queue_length", if 0 < ctx.maxQueueLength then .int ctx.maxQueueLength
                        else .str "unlimited"),
   ("queue_length", .int queueLen),
   ("build_number", .str ctx.buildNumber)]

/-- Asynchronous-completion success/tuple envelope (`process_task`,
lines 50-65): `response_data` built after the dequeued task returned. -/
def completionSuccessContent (ctx : Ctx) (data : JObj) (jobId : String)
    (queueLen : Nat) (payload : JVal) (endpoint : String) (status : Nat)
    (queueTime runTime totalTime : ℚ) : JObj :=
  [("endpoint", .str endpoint),
   ("code", .int status),
   ("id", pyGet data "id"),
   ("user_id", pyGet data "user_id"),
   ("job_id", .str jobId),
   ("response", if status = 200 then payload else .null),
   ("message", if status = 200 then .str "success" else payload),
   ("pid", .int ctx.pid),
   ("queue_id", .int ctx.queueId),
   ("run_time", .rat (round3 runTime)),
   ("queue_time", .rat (round3 queueTime)),
   ("total_time", .rat (round3 totalTime)),
   ("queue_length", .int queueLen),
   ("build_number", .str ctx.buildNumber)]

/-- Asynchronous-completion fault envelope (`process_task`, lines 71-80):
`error_response` built in the per-job `except` handler. -/
def completionErrorContent (ctx : Ctx) (data : JObj) (jobId : String)
    (queueLen : Nat) (msg : String) : JObj :=
  [("code", .int 500),
   ("id", pyGet data "id"),
   ("job_id", .str jobId),
   ("message", .str msg),
   ("pid", .int ctx.pid),
   ("queue_id", .int ctx.queueId),
   ("queue_length", .int queueLen),
   ("build_number", .str ctx.buildNumber)]

/-- The `queue_task` wrapper (`app_utils.py`, lines 100-185) for a single
request.  Inputs that the Python code obtains from ambient state are passed
explicitly: `userId` is `await current_user_id(api_key)` (an external
key-store lookup), `jobId` is the generated UUID, `queueLen` is
`task_queue.qsize()` at admission, `task` is the denotation of
`func(request, *args, **kwargs)`, `startTime` is `time.time()` at admission
and `runTime` the elapsed wall time of the inline call.  `body` is the
parameter mapping extracted from the first body-like keyword argument
(`{}` when none is found). -/
def queue_task (ctx : Ctx) (bypassQueue : Bool) (body : JObj) (userId : JVal)
    (jobId : String) (queueLen : Nat) (task : TaskResult)
    (startTime runTime : ℚ) : GateResult :=
  let data := dictSet body "user_id" userId
  if bypassQueue || !(pyGet data "webhook_url").truthy then
    match task with
    | .ok payload endpoint status =>
        { httpStatus := status
          content := syncSuccessContent ctx data userId jobId queueLen payload endpoint status runTime
          enqueued := none
          taskInvoked := true }
    | .exn msg =>
        { httpStatus := 500
          content := syncErrorContent ctx userId jobId queueLen msg
          enqueued := none
          taskInvoked := true }
  else if 0 < ctx.maxQueueLength ∧ ctx.maxQueueLength ≤ (queueLen : Int) then
    { httpStatus := 429
      content := rejectContent ctx data userId jobId queueLen
      enqueued := none
      taskInvoked := false }
  else
    { httpStatus := 202
      content := ackContent ctx data userId jobId (queueLen + 1)
      enqueued := some { jobId := jobId, data := data, task := task, enqueuedAt := startTime }
      taskInvoked := false }

/-- Outcome of one webhook delivery attempt, supplied by the environment:
either an HTTP response with some status, or a transport-level failure
raised by the client session. -/
inductive DeliveryOutcome where
  | response (status : Nat)
  | netError (msg : String)
deriving DecidableEq, Repr

/-- Observable behaviour of one `send_webhook` call: the POST attempts made
(url and JSON body), what was error-logged, and any exception escaping to
the caller. -/
structure SendResult where
  posts : List (String × JObj)
  errorLogged : Option String
  raised : Option String
deriving DecidableEq, Repr

/-- The Notifier, `send_webhook` (`services/webhook.py`, lines 6-16): one
POST of `data` to `webhook_url`; `raise_for_status` faults on a status of
400 or above; every fault, transport or status, is caught by the
surrounding `except Exception` and logged, so the call always returns
normally. -/
def send_webhook (webhook_url : String) (data : JObj)
    (outcome : DeliveryOutcome) : SendResult :=
  match outcome with
  | .response status =>
      if 400 ≤ status then
        { posts := [(webhook_url, data)]
          errorLogged := some ("Webhook failed: " ++ toString status)
          raised := none }
      else
        { posts := [(webhook_url, data)], errorLogged := none, raised := none }
  | .netError msg =>
      { posts := [(webhook_url, data)]
        errorLogged := some ("Webhook failed: " ++ msg)
        raised := none }

/-- Per-job environment inputs for one worker step: the three clock reads of
`process_task` (`t1` right after the pop, `t2` just before the task runs,
`t3` after it returns), `task_queue.qsize()` at envelope-build time, and the
delivery outcomes for the webhook attempts of the try block (`d1`) and of
the except handler (`d2`). -/
structure JobEnv where
  t1 : ℚ
  t2 : ℚ
  t3 : ℚ
  qlen : Nat
  d1 : DeliveryOutcome
  d2 : DeliveryOutcome
deriving DecidableEq, Repr

/-- Observable behaviour of one `process_task` coroutine run: the last
envelope built, the webhook POST attempts, and any exception escaping the
coroutine into the worker loop. -/
structure WorkerStep where
  envelope : Option JObj
  posts : List (String × JObj)
  raised : Option String
deriving DecidableEq, Repr

/-- The inner `process_task` coroutine (`app_utils.py`, lines 40-83): run
the dequeued task inside `try`; on a tuple, build `response_data` and, when
the job's parameters carry a truthy `webhook_url`, deliver it; on any
exception, the handler builds `error_response` and likewise delivers it.
An exception escaping the try block is the task's own; an exception escaping
the handler would come from its `send_webhook` call. -/
def process_task (ctx : Ctx) (j : Job) (env : JobEnv) : WorkerStep :=
  let tryStep : WorkerStep :=
    match j.task with
    | .ok payload endpoint status =>
        let rd := completionSuccessContent ctx j.data j.jobId env.qlen payload endpoint status
                    (env.t1 - j.enqueuedAt) (env.t3 - env.t2) (env.t3 - j.enqueuedAt)
        if (pyGet j.data "webhook_url").truthy then
          let s := send_webhook (pyGet j.data "webhook_url").pyStr rd env.d1
          { envelope := some rd, posts := s.posts, raised := s.raised }
        else
          { envelope := some rd, posts := [], raised := none }
    | .exn msg => { envelope := none, posts := [], raised := some msg }
  match tryStep.raised with
  | none => tryStep
  | some e =>
      let er := completionErrorContent ctx j.data j.jobId env.qlen e
      if (pyGet j.data "webhook_url").truthy then
        let s := send_webhook (pyGet j.data "webhook_url").pyStr er env.d2
        { envelope := some er, posts := tryStep.posts ++ s.posts, raised := s.raised }
      else
        { envelope := some er, posts := tryStep.posts, raised := none }

/-- Worker-trace events: the moment `await task_func()` begins for a job and
the moment its processing step has returned or raised. -/
inductive Event where
  | starting (jobId : String)
  | finished (jobId : String)
deriving DecidableEq, Repr

/-- The worker loop `process_queue` (`app_utils.py`, lines 85-91), run over
the jobs of the FIFO queue in enqueue order, each paired with its
environment inputs.  Each iteration pops one job and runs `process_task` to
completion; an exception escaping `process_task` would propagate out of
`run_until_complete` and terminate the loop, leaving the remaining jobs
unprocessed. -/
def process_queue (ctx : Ctx) : List (Job × JobEnv) → List Event
  | [] => []
  | (j, env) :: rest =>
      let step := process_task ctx j env
      match step.raised with
      | some _ => [.starting j.jobId, .finished j.jobId]
      | none => [.starting j.jobId, .finished j.jobId] ++ process_queue ctx rest

/-- Field names of the uniform Envelope: the union of the keys emitted by
the six envelope builders. -/
def envelopeSchema : List String :=
  ["endpoint", "code", "id", "user_id", "job_id", "response", "message",
   "run_time", "queue_time", "total_time", "pid", "queue_id",
   "max_queue_length", "queue_length", "build_number"]

/-- Field names populated by every one of the six envelope builders. -/
def envelopeCoreKeys : List String :=
  ["code", "job_id", "message", "pid", "queue_id", "queue_length", "build_number"]

/-- Envelope code the spec assigns to a task execution: the tuple's declared
status on return, 500 on a raised fault. -/
def declaredCode : TaskResult → JVal
  | .ok _ _ status => .int status
  | .exn _ => .int 500

/-- Envelope message the spec assigns to a task execution: the literal
"success" on status 200, the payload text on a declared non-200 status, and
the fault's message on a raised fault. -/
def declaredMessage : TaskResult → JVal
  | .ok payload _ status => if status = 200 then .str "success" else payload
  | .exn msg => .str msg

/-! Helper lemmas about the dictionary operations and the Notifier. -/

theorem dictGet_dictSet_same (m : JObj) (k : String) (v : JVal) :
    dictGet (dictSet m k v) k = some v := by
  induction m with
  | nil => simp [dictSet, dictGet]
  | cons p rest ih =>
      obtain ⟨k2, v2⟩ := p
      by_cases h : k2 = k
      · simp [dictSet, dictGet, h]
      · simp [dictSet, dictGet, h, ih]

theorem dictGet_dictSet_ne (m : JObj) (k k2 : String) (v : JVal) (h : k ≠ k2) :
    dictGet (dictSet m k v) k2 = dictGet m k2 := by
  induction m with
  | nil => simp [dictSet, dictGet, h]
  | cons p rest ih =>
      obtain ⟨k3, v3⟩ := p
      by_cases h2 : k3 = k
      · subst h2
        simp [dictSet, dictGet, h]
      · simp [dictSet, dictGet, h2, ih]

theorem dictSet_dictSet_same (m : JObj) (k : String) (v w : JVal) :
    dictSet (dictSet m k v) k w = dictSet m k w := by
  induction m with
  | nil => simp [dictSet]
  | cons p rest ih =>
      obtain ⟨k2, v2⟩ := p
      by_cases h : k2 = k
      · simp [dictSet, h]
      · simp [dictSet, h, ih]

theorem pyGet_data_webhook (body : JObj) (userId : JVal) :
    pyGet (dictSet body "user_id" userId) "webhook_url" = pyGet body "webhook_url" := by
  unfold pyGet
  rw [dictGet_dictSet_ne body "user_id" "webhook_url" userId (by decide)]

theorem pyGet_data_id (body : JObj) (userId : JVal) :
    pyGet (dictSet body "user_id" userId) "id" = pyGet body "id" := by
  unfold pyGet
  rw [dictGet_dictSet_ne body "user_id" "id" userId (by decide)]

theorem send_webhook_raised (u : String) (d : JObj) (o : DeliveryOutcome) :
    (send_webhook u d o).raised = none := by
  cases o with
  | response status => by_cases h : 400 ≤ status <;> simp [send_webhook, h]
  | netError msg => rfl

theorem process_task_raised (ctx : Ctx) (j : Job) (env : JobEnv) :
    (process_task ctx j env).raised = none := by
  cases htask : j.task with
  | ok payload endpoint status =>
      by_cases hw : (pyGet j.data "webhook_url").truthy
      · simp [process_task, htask, hw, send_webhook_raised]
      · simp [process_task, htask, hw]
  | exn msg =>
      by_cases hw : (pyGet j.data "webhook_url").truthy
      · simp [process_task, htask, hw, send_webhook_raised]
      · simp [process_task, htask, hw]

/-- C4: the Worker Loop is a single sequential consumer processing the queue
in strict FIFO order: its event trace is exactly, for each job in enqueue
order, that job's start followed by its completion — so a job enqueued
earlier starts earlier, and no job starts before the previous job's
processing has returned or raised. -/
theorem worker_fifo_sequential (ctx : Ctx) (jobs : List (Job × JobEnv)) :
    process_queue ctx jobs =
      jobs.flatMap (fun je => [Event.starting je.1.jobId, Event.finished je.1.jobId]) := by
  induction jobs with
  | nil => rfl
  | cons je rest ih =>
      obtain ⟨j, env⟩ := je
      simp [process_queue, process_task_raised ctx j env, ih]

/-- C5: every fault raised while executing a job's Task Function or while
delivering its notification is caught inside that job's processing step
(`process_task` never lets an exception escape), so the Worker Loop always
proceeds to the next queued job. -/
theorem worker_survives_job_fault (ctx : Ctx) (j : Job) (env : JobEnv)
    (rest : List (Job × JobEnv)) :
    (process_task ctx j env).raised = none ∧
    process_queue ctx ((j, env) :: rest) =
      [Event.starting j.jobId, Event.finished j.jobId] ++ process_queue ctx rest := by
  refine ⟨process_task_raised ctx j env, ?_⟩
  simp [process_queue, process_task_raised ctx j env]

/-- C9: each call of the Notifier makes exactly one POST attempt of the
envelope to the supplied URL, and for every delivery outcome — success,
error status, or transport failure — it returns normally, never raising to
its caller (hence never retrying). -/
theorem send_webhook_one_post_no_raise (u : String) (d : JObj) (o : DeliveryOutcome) :
    (send_webhook u d o).posts = [(u, d)] ∧ (send_webhook u d o).raised = none := by
  refine ⟨?_, send_webhook_raised u d o⟩
  cases o with
  | response status => by_cases h : 400 ≤ status <;> simp [send_webhook, h]
  | netError msg => rfl

/-! Branch characterizations of the Admission Gate. -/

theorem queue_task_sync_ok (ctx : Ctx) (bp : Bool) (body : JObj) (u p : JVal)
    (jid ep : String) (ql st : Nat) (t r : ℚ)
    (h : (bp || !(pyGet body "webhook_url").truthy) = true) :
    queue_task ctx bp body u jid ql (.ok p ep st) t r =
      { httpStatus := st
        content := syncSuccessContent ctx (dictSet body "user_id" u) u jid ql p ep st r
        enqueued := none
        taskInvoked := true } := by
  simp [queue_task, pyGet_data_webhook, h]

theorem queue_task_sync_exn (ctx : Ctx) (bp : Bool) (body : JObj) (u : JVal)
    (jid m : String) (ql : Nat) (t r : ℚ)
    (h : (bp || !(pyGet body "webhook_url").truthy) = true) :
    queue_task ctx bp body u jid ql (.exn m) t r =
      { httpStatus := 500
        content := syncErrorContent ctx u jid ql m
        enqueued := none
        taskInvoked := true } := by
  simp [queue_task, pyGet_data_webhook, h]

theorem queue_task_reject (ctx : Ctx) (bp : Bool) (body : JObj) (u : JVal)
    (jid : String) (ql : Nat) (task : TaskResult) (t r : ℚ)
    (h : (bp || !(pyGet body "webhook_url").truthy) = false)
    (h2 : 0 < ctx.maxQueueLength ∧ ctx.maxQueueLength ≤ (ql : Int)) :
    queue_task ctx bp body u jid ql task t r =
      { httpStatus := 429
        content := rejectContent ctx (dictSet body "user_id" u) u jid ql
        enqueued := none
        taskInvoked := false } := by
  simp [queue_task, pyGet_data_webhook, h, h2]

theorem queue_task_accept (ctx : Ctx) (bp : Bool) (body : JObj) (u : JVal)
    (jid : String) (ql : Nat) (task : TaskResult) (t r : ℚ)
    (h : (bp || !(pyGet body "webhook_url").truthy) = false)
    (h2 : ¬(0 < ctx.maxQueueLength ∧ ctx.maxQueueLength ≤ (ql : Int))) :
    queue_task ctx bp body u jid ql task t r =
      { httpStatus := 202
        content := ackContent ctx (dictSet body "user_id" u) u jid (ql + 1)
        enqueued := some { jobId := jid, data := dictSet body "user_id" u,
                           task := task, enqueuedAt := t }
        taskInvoked := false } := by
  simp [queue_task, pyGet_data_webhook, h, h2]

theorem queue_task_taskInvoked (ctx : Ctx) (bp : Bool) (body : JObj) (u : JVal)
    (jid : String) (ql : Nat) (task : TaskResult) (t r : ℚ) :
    (queue_task ctx bp body u jid ql task t r).taskInvoked
      = (bp || !(pyGet body "webhook_url").truthy) := by
  by_cases h : (bp || !(pyGet body "webhook_url").truthy) = true
  · cases task with
    | ok p ep st => rw [queue_task_sync_ok ctx bp body u p jid ep ql st t r h, h]
    | exn m => rw [queue_task_sync_exn ctx bp body u jid m ql t r h, h]
  · rw [Bool.not_eq_true] at h
    by_cases h2 : 0 < ctx.maxQueueLength ∧ ctx.maxQueueLength ≤ (ql : Int)
    · rw [queue_task_reject ctx bp body u jid ql task t r h h2, h]
    · rw [queue_task_accept ctx bp body u jid ql task t r h h2, h]

theorem process_task_envelope (ctx : Ctx) (j : Job) (env : JobEnv) :
    (process_task ctx j env).envelope = some (
      match j.task with
      | .ok payload endpoint status =>
          completionSuccessContent ctx j.data j.jobId env.qlen payload endpoint status
            (env.t1 - j.enqueuedAt) (env.t3 - env.t2) (env.t3 - j.enqueuedAt)
      | .exn msg => completionErrorContent ctx j.data j.jobId env.qlen msg) := by
  cases htask : j.task <;> by_cases hw : (pyGet j.data "webhook_url").truthy <;>
    simp [process_task, htask, hw, send_webhook_raised]

/-- C1: a request is handled synchronously (Task Function invoked inline)
exactly when the route's `bypass_queue` flag is set or the body's
`webhook_url` is absent or empty, and in that case no job is enqueued.  The
hypothesis records what the pydantic request models guarantee: the
`webhook_url` entry is either absent/None or a string. -/
theorem admission_sync_iff_bypass_or_no_webhook (ctx : Ctx) (bypassQueue : Bool)
    (body : JObj) (userId : JVal) (jobId : String) (queueLen : Nat)
    (task : TaskResult) (startTime runTime : ℚ)
    (hty : pyGet body "webhook_url" = JVal.null ∨ ∃ s, pyGet body "webhook_url" = JVal.str s) :
    ((queue_task ctx bypassQueue body userId jobId queueLen task startTime runTime).taskInvoked = true
       ↔ bypassQueue = true ∨ pyGet body "webhook_url" = JVal.null
         ∨ pyGet body "webhook_url" = JVal.str "")
    ∧ ((queue_task ctx bypassQueue body userId jobId queueLen task startTime runTime).taskInvoked = true
       → (queue_task ctx bypassQueue body userId jobId queueLen task startTime runTime).enqueued = none) := by
  constructor
  · rw [queue_task_taskInvoked]
    rcases hty with h | ⟨s, h⟩
    · rw [h]
      simp [JVal.truthy]
    · rw [h]
      by_cases hs : s = ""
      · subst hs
        simp [JVal.truthy]
      · simp [JVal.truthy, hs]
  · intro hinv
    rw [queue_task_taskInvoked] at hinv
    cases task <;> simp [queue_task, pyGet_data_webhook, hinv]

/-- Witness for C1 at a concrete input: an empty body (webhook absent), so
the request is handled synchronously. -/
theorem admission_sync_iff_bypass_or_no_webhook_witness :
    (queue_task ⟨0, "b", 1, 2⟩ false [] (JVal.str "alice") "j" 0
        (.ok (JVal.str "ok") "/x" 200) 0 0).taskInvoked = true
      ↔ false = true ∨ pyGet [] "webhook_url" = JVal.null
        ∨ pyGet [] "webhook_url" = JVal.str "" :=
  (admission_sync_iff_bypass_or_no_webhook ⟨0, "b", 1, 2⟩ false [] (JVal.str "alice")
    "j" 0 (.ok (JVal.str "ok") "/x" 200) 0 0 (Or.inl rfl)).1

/-- C2: an asynchronous-path request (no bypass, truthy `webhook_url`)
arriving when a positive capacity is configured and the queue length has
reached it is rejected with HTTP 429 and an envelope whose `code` is 429 and
whose `message` names the configured limit; the Task Function is not
invoked, no job is enqueued, and the reported occupancy is the unchanged
queue length. -/
theorem admission_reject_when_full (ctx : Ctx) (body : JObj) (userId : JVal)
    (jobId : String) (queueLen : Nat) (task : TaskResult) (startTime runTime : ℚ)
    (hw : (pyGet body "webhook_url").truthy = true)
    (hM : 0 < ctx.maxQueueLength)
    (hq : ctx.maxQueueLength ≤ (queueLen : Int)) :
    (queue_task ctx false body userId jobId queueLen task startTime runTime).httpStatus = 429
    ∧ pyGet (queue_task ctx false body userId jobId queueLen task startTime runTime).content "code"
        = JVal.int 429
    ∧ pyGet (queue_task ctx false body userId jobId queueLen task startTime runTime).content "message"
        = JVal.str ("MAX_QUEUE_LENGTH (" ++ toString ctx.maxQueueLength ++ ") reached")
    ∧ (queue_task ctx false body userId jobId queueLen task startTime runTime).taskInvoked = false
    ∧ (queue_task ctx false body userId jobId queueLen task startTime runTime).enqueued = none
    ∧ pyGet (queue_task ctx false body userId jobId queueLen task startTime runTime).content "queue_length"
        = JVal.int queueLen := by
  have h : (false || !(pyGet body "webhook_url").truthy) = false := by simp [hw]
  rw [queue_task_reject ctx false body userId jobId queueLen task startTime runTime h ⟨hM, hq⟩]
  exact ⟨rfl, rfl, rfl, rfl, rfl, rfl⟩

/-- Witness for C2 at a concrete input: capacity 1 and one job already
queued. -/
theorem admission_reject_when_full_witness :
    (queue_task ⟨1, "b", 1, 2⟩ false [("webhook_url", JVal.str "http://cb")] (JVal.str "alice")
        "j" 1 (.ok (JVal.str "ok") "/x" 200) 0 0).httpStatus = 429
    ∧ pyGet (queue_task ⟨1, "b", 1, 2⟩ false [("webhook_url", JVal.str "http://cb")] (JVal.str "alice")
        "j" 1 (.ok (JVal.str "ok") "/x" 200) 0 0).content "code" = JVal.int 429
    ∧ pyGet (queue_task ⟨1, "b", 1, 2⟩ false [("webhook_url", JVal.str "http://cb")] (JVal.str "alice")
        "j" 1 (.ok (JVal.str "ok") "/x" 200) 0 0).content "message"
        = JVal.str ("MAX_QUEUE_LENGTH (" ++ toString (1 : Int) ++ ") reached")
    ∧ (queue_task ⟨1, "b", 1, 2⟩ false [("webhook_url", JVal.str "http://cb")] (JVal.str "alice")
        "j" 1 (.ok (JVal.str "ok") "/x" 200) 0 0).taskInvoked = false
    ∧ (queue_task ⟨1, "b", 1, 2⟩ false [("webhook_url", JVal.str "http://cb")] (JVal.str "alice")
        "j" 1 (.ok (JVal.str "ok") "/x" 200) 0 0).enqueued = none
    ∧ pyGet (queue_task ⟨1, "b", 1, 2⟩ false [("webhook_url", JVal.str "http://cb")] (JVal.str "alice")
        "j" 1 (.ok (JVal.str "ok") "/x" 200) 0 0).content "queue_length" = JVal.int 1 :=
  admission_reject_when_full ⟨1, "b", 1, 2⟩ [("webhook_url", JVal.str "http://cb")]
    (JVal.str "alice") "j" 1 (.ok (JVal.str "ok") "/x" 200) 0 0
    (by decide) (by decide) (by decide)

/-- C3: an asynchronous-path request arriving below capacity (or with
capacity unset) enqueues a job wrapping the Task Function without executing
it, and is acknowledged with HTTP 202, `message="processing"`, the job id,
the queue length after the push, and the configured capacity (or the string
"unlimited" when capacity is unset or zero). -/
theorem admission_accept_enqueues (ctx : Ctx) (body : JObj) (userId : JVal)
    (jobId : String) (queueLen : Nat) (task : TaskResult) (startTime runTime : ℚ)
    (hw : (pyGet body "webhook_url").truthy = true)
    (hcap : ¬(0 < ctx.maxQueueLength ∧ ctx.maxQueueLength ≤ (queueLen : Int))) :
    (queue_task ctx false body userId jobId queueLen task startTime runTime).httpStatus = 202
    ∧ pyGet (queue_task ctx false body userId jobId queueLen task startTime runTime).content "code"
        = JVal.int 202
    ∧ pyGet (queue_task ctx false body userId jobId queueLen task startTime runTime).content "message"
        = JVal.str "processing"
    ∧ pyGet (queue_task ctx false body userId jobId queueLen task startTime runTime).content "job_id"
        = JVal.str jobId
    ∧ pyGet (queue_task ctx false body userId jobId queueLen task startTime runTime).content "queue_length"
        = JVal.int (queueLen + 1)
    ∧ pyGet (queue_task ctx false body userId jobId queueLen task startTime runTime).content "max_queue_length"
        = (if 0 < ctx.maxQueueLength then JVal.int ctx.maxQueueLength else JVal.str "unlimited")
    ∧ (queue_task ctx false body userId jobId queueLen task startTime runTime).taskInvoked = false
    ∧ (queue_task ctx false body userId jobId queueLen task startTime runTime).enqueued
        = some { jobId := jobId, data := dictSet body "user_id" userId,
                 task := task, enqueuedAt := startTime } := by
  have h : (false || !(pyGet body "webhook_url").truthy) = false := by simp [hw]
  rw [queue_task_accept ctx false body userId jobId queueLen task startTime runTime h hcap]
  refine ⟨rfl, rfl, rfl, rfl, ?_, rfl, rfl, rfl⟩
  simp [pyGet, dictGet, ackContent]

/-- Witness for C3 at a concrete input: capacity unset (0), empty queue. -/
theorem admission_accept_enqueues_witness :
    (queue_task ⟨0, "b", 1, 2⟩ false [("webhook_url", JVal.str "http://cb")] (JVal.str "alice")
        "j" 0 (.ok (JVal.str "ok") "/x" 200) 0 0).httpStatus = 202
    ∧ pyGet (queue_task ⟨0, "b", 1, 2⟩ false [("webhook_url", JVal.str "http://cb")] (JVal.str "alice")
        "j" 0 (.ok (JVal.str "ok") "/x" 200) 0 0).content "code" = JVal.int 202
    ∧ pyGet (queue_task ⟨0, "b", 1, 2⟩ false [("webhook_url", JVal.str "http://cb")] (JVal.str "alice")
        "j" 0 (.ok (JVal.str "ok") "/x" 200) 0 0).content "message" = JVal.str "processing"
    ∧ pyGet (queue_task ⟨0, "b", 1, 2⟩ false [("webhook_url", JVal.str "http://cb")] (JVal.str "alice")
        "j" 0 (.ok (JVal.str "ok") "/x" 200) 0 0).content "job_id" = JVal.str "j"
    ∧ pyGet (queue_task ⟨0, "b", 1, 2⟩ false [("webhook_url", JVal.str "http://cb")] (JVal.str "alice")
        "j" 0 (.ok (JVal.str "ok") "/x" 200) 0 0).content "queue_length" = JVal.int 1
    ∧ pyGet (queue_task ⟨0, "b", 1, 2⟩ false [("webhook_url", JVal.str "http://cb")] (JVal.str "alice")
        "j" 0 (.ok (JVal.str "ok") "/x" 200) 0 0).content "max_queue_length"
        = (if (0 : Int) < 0 then JVal.int 0 else JVal.str "unlimited")
    ∧ (queue_task ⟨0, "b", 1, 2⟩ false [("webhook_url", JVal.str "http://cb")] (JVal.str "alice")
        "j" 0 (.ok (JVal.str "ok") "/x" 200) 0 0).taskInvoked = false
    ∧ (queue_task ⟨0, "b", 1, 2⟩ false [("webhook_url", JVal.str "http://cb")] (JVal.str "alice")
        "j" 0 (.ok (JVal.str "ok") "/x" 200) 0 0).enqueued
        = some { jobId := "j",
                 data := dictSet [("webhook_url", JVal.str "http://cb")] "user_id" (JVal.str "alice"),
                 task := .ok (JVal.str "ok") "/x" 200, enqueuedAt := 0 } :=
  admission_accept_enqueues ⟨0, "b", 1, 2⟩ [("webhook_url", JVal.str "http://cb")]
    (JVal.str "alice") "j" 0 (.ok (JVal.str "ok") "/x" 200) 0 0 (by decide) (by decide)

/-- C6: for every Task Function execution, synchronous (whenever the gate
invokes inline) or asynchronous (worker completion), the envelope's code is
the tuple's declared status when the task returns a tuple — with the payload
as message on a non-200 status — and is 500 with the fault's message when
the task raises, regardless of any status the task attempted to report. -/
theorem envelope_code_honours_status_faults_500 (ctx : Ctx) (bp : Bool) (body : JObj)
    (u : JVal) (jid : String) (ql : Nat) (task : TaskResult) (t r : ℚ)
    (j : Job) (env : JobEnv)
    (hsync : (queue_task ctx bp body u jid ql task t r).taskInvoked = true) :
    pyGet (queue_task ctx bp body u jid ql task t r).content "code" = declaredCode task
    ∧ pyGet (queue_task ctx bp body u jid ql task t r).content "message" = declaredMessage task
    ∧ pyGet ((process_task ctx j env).envelope.getD []) "code" = declaredCode j.task
    ∧ pyGet ((process_task ctx j env).envelope.getD []) "message" = declaredMessage j.task := by
  have hC : (bp || !(pyGet body "webhook_url").truthy) = true := by
    rw [queue_task_taskInvoked] at hsync
    exact hsync
  refine ⟨?_, ?_, ?_, ?_⟩
  · cases task with
    | ok p ep st => rw [queue_task_sync_ok ctx bp body u p jid ep ql st t r hC]; rfl
    | exn m => rw [queue_task_sync_exn ctx bp body u jid m ql t r hC]; rfl
  · cases task with
    | ok p ep st => rw [queue_task_sync_ok ctx bp body u p jid ep ql st t r hC]; rfl
    | exn m => rw [queue_task_sync_exn ctx bp body u jid m ql t r hC]; rfl
  · rw [process_task_envelope]
    cases htask : j.task <;> rfl
  · rw [process_task_envelope]
    cases htask : j.task <;> rfl

/-- Witness for C6 at a concrete input: a bypassed route whose task reports
status 418, and a queued job whose task raises "boom". -/
theorem envelope_code_honours_status_faults_500_witness :
    pyGet (queue_task ⟨0, "b", 1, 2⟩ true [] (JVal.str "alice") "j" 0
        (.ok (JVal.str "teapot") "/x" 418) 0 0).content "code"
      = declaredCode (.ok (JVal.str "teapot") "/x" 418)
    ∧ pyGet (queue_task ⟨0, "b", 1, 2⟩ true [] (JVal.str "alice") "j" 0
        (.ok (JVal.str "teapot") "/x" 418) 0 0).content "message"
      = declaredMessage (.ok (JVal.str "teapot") "/x" 418)
    ∧ pyGet ((process_task ⟨0, "b", 1, 2⟩ ⟨"k", [], .exn "boom", 0⟩
        ⟨0, 0, 0, 0, .response 200, .response 200⟩).envelope.getD []) "code"
      = declaredCode (Job.mk "k" [] (.exn "boom") 0).task
    ∧ pyGet ((process_task ⟨0, "b", 1, 2⟩ ⟨"k", [], .exn "boom", 0⟩
        ⟨0, 0, 0, 0, .response 200, .response 200⟩).envelope.getD []) "message"
      = declaredMessage (Job.mk "k" [] (.exn "boom") 0).task :=
  envelope_code_honours_status_faults_500 ⟨0, "b", 1, 2⟩ true [] (JVal.str "alice") "j" 0
    (.ok (JVal.str "teapot") "/x" 418) 0 0 ⟨"k", [], .exn "boom", 0⟩
    ⟨0, 0, 0, 0, .response 200, .response 200⟩ (by decide)

/-- C7: the six envelope forms emitted across the synchronous-response,
asynchronous-acknowledgement/rejection, and asynchronous-completion paths
are drawn from one shared field schema: every key each path emits belongs to
the common Envelope schema, and a common core of fields (code, job_id,
message, pid, queue_id, queue_length, build_number) is populated by all of
them, the paths differing only in which further fields are populated or
omitted. -/
theorem envelope_fields_shared_schema (ctx : Ctx) (data : JObj) (userId payload : JVal)
    (jobId endpoint msg : String) (ql status : Nat) (qt rt tt : ℚ) :
    (keysOf (syncSuccessContent ctx data userId jobId ql payload endpoint status rt) ⊆ envelopeSchema
      ∧ envelopeCoreKeys ⊆ keysOf (syncSuccessContent ctx data userId jobId ql payload endpoint status rt))
    ∧ (keysOf (syncErrorContent ctx userId jobId ql msg) ⊆ envelopeSchema
      ∧ envelopeCoreKeys ⊆ keysOf (syncErrorContent ctx userId jobId ql msg))
    ∧ (keysOf (rejectContent ctx data userId jobId ql) ⊆ envelopeSchema
      ∧ envelopeCoreKeys ⊆ keysOf (rejectContent ctx data userId jobId ql))
    ∧ (keysOf (ackContent ctx data userId jobId ql) ⊆ envelopeSchema
      ∧ envelopeCoreKeys ⊆ keysOf (ackContent ctx data userId jobId ql))
    ∧ (keysOf (completionSuccessContent ctx data jobId ql payload endpoint status qt rt tt) ⊆ envelopeSchema
      ∧ envelopeCoreKeys ⊆ keysOf (completionSuccessContent ctx data jobId ql payload endpoint status qt rt tt))
    ∧ (keysOf (completionErrorContent ctx data jobId ql msg) ⊆ envelopeSchema
      ∧ envelopeCoreKeys ⊆ keysOf (completionErrorContent ctx data jobId ql msg)) := by
  refine ⟨⟨?_, ?_⟩, ⟨?_, ?_⟩, ⟨?_, ?_⟩, ⟨?_, ?_⟩, ⟨?_, ?_⟩, ⟨?_, ?_⟩⟩
  all_goals
    simp only [keysOf, syncSuccessContent, syncErrorContent, rejectContent, ackContent,
      completionSuccessContent, completionErrorContent, List.map_cons, List.map_nil]
    decide

/-- C8: a synchronous-path request whose Task Function returns status 200 is
answered with an envelope of code 200, the payload as `response`, the
literal message "success", `queue_time` 0 and `total_time` equal to
`run_time`; and on every path the HTTP status of the response equals the
envelope's `code` field. -/
theorem sync_success_envelope_http_matches_code (ctx : Ctx) (bp : Bool) (body : JObj)
    (u p : JVal) (jid ep : String) (ql : Nat) (t rt : ℚ)
    (hsync : (queue_task ctx bp body u jid ql (.ok p ep 200) t rt).taskInvoked = true) :
    (queue_task ctx bp body u jid ql (.ok p ep 200) t rt).httpStatus = 200
    ∧ pyGet (queue_task ctx bp body u jid ql (.ok p ep 200) t rt).content "code" = JVal.int 200
    ∧ pyGet (queue_task ctx bp body u jid ql (.ok p ep 200) t rt).content "response" = p
    ∧ pyGet (queue_task ctx bp body u jid ql (.ok p ep 200) t rt).content "message" = JVal.str "success"
    ∧ pyGet (queue_task ctx bp body u jid ql (.ok p ep 200) t rt).content "queue_time" = JVal.int 0
    ∧ pyGet (queue_task ctx bp body u jid ql (.ok p ep 200) t rt).content "total_time"
        = pyGet (queue_task ctx bp body u jid ql (.ok p ep 200) t rt).content "run_time"
    ∧ (∀ (ctx2 : Ctx) (bp2 : Bool) (body2 : JObj) (u2 : JVal) (jid2 : String)
         (ql2 : Nat) (task2 : TaskResult) (t2 rt2 : ℚ),
         pyGet (queue_task ctx2 bp2 body2 u2 jid2 ql2 task2 t2 rt2).content "code"
           = JVal.int ((queue_task ctx2 bp2 body2 u2 jid2 ql2 task2 t2 rt2).httpStatus : Int)) := by
  have hC : (bp || !(pyGet body "webhook_url").truthy) = true := by
    rw [queue_task_taskInvoked] at hsync
    exact hsync
  rw [queue_task_sync_ok ctx bp body u p jid ep ql 200 t rt hC]
  refine ⟨rfl, rfl, rfl, rfl, rfl, rfl, ?_⟩
  intro ctx2 bp2 body2 u2 jid2 ql2 task2 t2 rt2
  by_cases hC2 : (bp2 || !(pyGet body2 "webhook_url").truthy) = true
  · cases task2 with
    | ok p2 ep2 st2 => rw [queue_task_sync_ok ctx2 bp2 body2 u2 p2 jid2 ep2 ql2 st2 t2 rt2 hC2]; rfl
    | exn m2 => rw [queue_task_sync_exn ctx2 bp2 body2 u2 jid2 m2 ql2 t2 rt2 hC2]; rfl
  · rw [Bool.not_eq_true] at hC2
    by_cases hF : 0 < ctx2.maxQueueLength ∧ ctx2.maxQueueLength ≤ (ql2 : Int)
    · rw [queue_task_reject ctx2 bp2 body2 u2 jid2 ql2 task2 t2 rt2 hC2 hF]; rfl
    · rw [queue_task_accept ctx2 bp2 body2 u2 jid2 ql2 task2 t2 rt2 hC2 hF]; rfl

/-- Witness for C8 at a concrete input: a request without `webhook_url`
whose task returns ("data", "/y", 200). -/
theorem sync_success_envelope_http_matches_code_witness :
    (queue_task ⟨0, "b", 1, 2⟩ false [] (JVal.str "alice") "j" 0
        (.ok (JVal.str "data") "/y" 200) 0 0).httpStatus = 200
    ∧ pyGet (queue_task ⟨0, "b", 1, 2⟩ false [] (JVal.str "alice") "j" 0
        (.ok (JVal.str "data") "/y" 200) 0 0).content "code" = JVal.int 200
    ∧ pyGet (queue_task ⟨0, "b", 1, 2⟩ false [] (JVal.str "alice") "j" 0
        (.ok (JVal.str "data") "/y" 200) 0 0).content "response" = JVal.str "data"
    ∧ pyGet (queue_task ⟨0, "b", 1, 2⟩ false [] (JVal.str "alice") "j" 0
        (.ok (JVal.str "data") "/y" 200) 0 0).content "message" = JVal.str "success"
    ∧ pyGet (queue_task ⟨0, "b", 1, 2⟩ false [] (JVal.str "alice") "j" 0
        (.ok (JVal.str "data") "/y" 200) 0 0).content "queue_time" = JVal.int 0
    ∧ pyGet (queue_task ⟨0, "b", 1, 2⟩ false [] (JVal.str "alice") "j" 0
        (.ok (JVal.str "data") "/y" 200) 0 0).content "total_time"
        = pyGet (queue_task ⟨0, "b", 1, 2⟩ false [] (JVal.str "alice") "j" 0
            (.ok (JVal.str "data") "/y" 200) 0 0).content "run_time"
    ∧ (∀ (ctx2 : Ctx) (bp2 : Bool) (body2 : JObj) (u2 : JVal) (jid2 : String)
         (ql2 : Nat) (task2 : TaskResult) (t2 rt2 : ℚ),
         pyGet (queue_task ctx2 bp2 body2 u2 jid2 ql2 task2 t2 rt2).content "code"
           = JVal.int ((queue_task ctx2 bp2 body2 u2 jid2 ql2 task2 t2 rt2).httpStatus : Int)) :=
  sync_success_envelope_http_matches_code ⟨0, "b", 1, 2⟩ false [] (JVal.str "alice")
    (JVal.str "data") "j" "/y" 0 0 0 (by decide)

theorem pyGet_dictSet_same (m : JObj) (k : String) (v : JVal) :
    pyGet (dictSet m k v) k = v := by
  unfold pyGet
  rw [dictGet_dictSet_same]
  rfl

theorem completionSuccess_user_id (ctx : Ctx) (data : JObj) (jobId : String)
    (ql : Nat) (p : JVal) (ep : String) (st : Nat) (qt rt tt : ℚ) :
    dictGet (completionSuccessContent ctx data jobId ql p ep st qt rt tt) "user_id"
      = some (pyGet data "user_id") := rfl

theorem completionError_user_id (ctx : Ctx) (data : JObj) (jobId : String)
    (ql : Nat) (m : String) :
    dictGet (completionErrorContent ctx data jobId ql m) "user_id" = none := rfl

/-- C10: the gate overwrites any client-supplied `user_id` in the body with
the identity resolved from the `x-api-key` header before the mapping is
used, so the body cannot influence the reported identity: the gate's result
is unchanged when the body's `user_id` is replaced by anything; every gate
envelope carries the resolved identity as `user_id`; and any enqueued job's
parameters — hence any completion envelope that has a `user_id` field —
carry the resolved identity as well. -/
theorem user_id_resolved_from_api_key (ctx : Ctx) (bp : Bool) (body : JObj)
    (v u : JVal) (jid : String) (ql : Nat) (task : TaskResult) (t rt : ℚ)
    (env : JobEnv) :
    queue_task ctx bp (dictSet body "user_id" v) u jid ql task t rt
      = queue_task ctx bp body u jid ql task t rt
    ∧ dictGet (queue_task ctx bp body u jid ql task t rt).content "user_id" = some u
    ∧ ∀ j : Job, (queue_task ctx bp body u jid ql task t rt).enqueued = some j →
        dictGet j.data "user_id" = some u
        ∧ (dictGet ((process_task ctx j env).envelope.getD []) "user_id" = some u
           ∨ dictGet ((process_task ctx j env).envelope.getD []) "user_id" = none) := by
  refine ⟨?_, ?_, ?_⟩
  · simp [queue_task, dictSet_dictSet_same]
  · by_cases hC : (bp || !(pyGet body "webhook_url").truthy) = true
    · cases task with
      | ok p ep st => rw [queue_task_sync_ok ctx bp body u p jid ep ql st t rt hC]; rfl
      | exn m => rw [queue_task_sync_exn ctx bp body u jid m ql t rt hC]; rfl
    · rw [Bool.not_eq_true] at hC
      by_cases hF : 0 < ctx.maxQueueLength ∧ ctx.maxQueueLength ≤ (ql : Int)
      · rw [queue_task_reject ctx bp body u jid ql task t rt hC hF]; rfl
      · rw [queue_task_accept ctx bp body u jid ql task t rt hC hF]; rfl
  · intro j hj
    have hCfalse : (bp || !(pyGet body "webhook_url").truthy) = false := by
      by_contra hC
      rw [Bool.not_eq_false] at hC
      cases task with
      | ok p ep st =>
          rw [queue_task_sync_ok ctx bp body u p jid ep ql st t rt hC] at hj
          exact Option.noConfusion hj
      | exn m =>
          rw [queue_task_sync_exn ctx bp body u jid m ql t rt hC] at hj
          exact Option.noConfusion hj
    have hFfalse : ¬(0 < ctx.maxQueueLength ∧ ctx.maxQueueLength ≤ (ql : Int)) := by
      intro hF
      rw [queue_task_reject ctx bp body u jid ql task t rt hCfalse hF] at hj
      exact Option.noConfusion hj
    rw [queue_task_accept ctx bp body u jid ql task t rt hCfalse hFfalse] at hj
    have hjeq : Job.mk jid (dictSet body "user_id" u) task t = j := Option.some.inj hj
    subst hjeq
    refine ⟨by rw [dictGet_dictSet_same], ?_⟩
    cases task with
    | ok p ep st =>
        left
        rw [process_task_envelope]
        show dictGet (completionSuccessContent ctx (dictSet body "user_id" u) jid env.qlen
          p ep st (env.t1 - t) (env.t3 - env.t2) (env.t3 - t)) "user_id" = some u
        rw [completionSuccess_user_id, pyGet_dictSet_same]
    | exn m =>
        right
        rw [process_task_envelope]
        show dictGet (completionErrorContent ctx (dictSet body "user_id" u) jid env.qlen m)
          "user_id" = none
        rw [completionError_user_id]

/-- Witness for C10 at a concrete input: a body that tries to claim
`user_id` "evil" while the key resolves to "alice"; the accepted job and its
completion envelope report "alice". -/
theorem user_id_resolved_from_api_key_witness :
    dictGet (Job.mk "j"
        (dictSet [("webhook_url", JVal.str "h"), ("user_id", JVal.str "evil")] "user_id"
          (JVal.str "alice"))
        (.ok (JVal.str "ok") "/x" 200) 0).data "user_id" = some (JVal.str "alice")
    ∧ (dictGet ((process_task ⟨0, "b", 1, 2⟩ (Job.mk "j"
          (dictSet [("webhook_url", JVal.str "h"), ("user_id", JVal.str "evil")] "user_id"
            (JVal.str "alice"))
          (.ok (JVal.str "ok") "/x" 200) 0)
          ⟨0, 0, 0, 0, .response 200, .response 200⟩).envelope.getD []) "user_id"
        = some (JVal.str "alice")
       ∨ dictGet ((process_task ⟨0, "b", 1, 2⟩ (Job.mk "j"
          (dictSet [("webhook_url", JVal.str "h"), ("user_id", JVal.str "evil")] "user_id"
            (JVal.str "alice"))
          (.ok (JVal.str "ok") "/x" 200) 0)
          ⟨0, 0, 0, 0, .response 200, .response 200⟩).envelope.getD []) "user_id" = none) :=
  (user_id_resolved_from_api_key ⟨0, "b", 1, 2⟩ false
      [("webhook_url", JVal.str "h"), ("user_id", JVal.str "evil")]
      (JVal.str "other") (JVal.str "alice") "j" 0 (.ok (JVal.str "ok") "/x" 200) 0 0
      ⟨0, 0, 0, 0, .response 200, .response 200⟩).2.2
    (Job.mk "j"
      (dictSet [("webhook_url", JVal.str "h"), ("user_id", JVal.str "evil")] "user_id"
        (JVal.str "alice"))
      (.ok (JVal.str "ok") "/x" 200) 0)
    (by decide)
